import Mathlib

/-!
A shallow embedding of the Thimble web framework (`thimble.py`), a tiny
HTTP server engine for microcontrollers, together with proofs about its
request parsing, route resolution, handler-result normalization, response
formatting and static-file delivery.

Python strings are modelled as Lean `String`; all string operations used
by the code (`split`, `in`, `strip`, `lower`, `replace`, ...) are
re-implemented here over the underlying character list with structural
(fuel-based) recursion so that every definition evaluates inside the
kernel.  Python dictionaries are modelled as insertion-ordered association
lists (`d[k] = v` keeps the position of an existing key and appends a new
one, exactly like CPython dicts).  Python exceptions are modelled with
`Option`/`Except`: `Option.none` marks a raised exception.
-/

namespace Thimble

/-! ## Python string primitives -/

/-- Python `sub in s` for a single-character `sub`. -/
def pyContainsChar (s : String) (c : Char) : Bool :=
  s.data.contains c

/-- Fuel-driven worker for `pySplit`: splits a character list on a
non-empty separator occurrence by occurrence.  The fuel is an upper bound
on the number of characters consumed; `pySplit` always supplies enough. -/
def pySplitFuel (sep : List Char) : Nat → List Char → List Char → List (List Char)
  | 0, s, acc => [acc.reverse ++ s]
  | Nat.succ _, [], acc => [acc.reverse]
  | Nat.succ n, c :: rest, acc =>
    if sep.isPrefixOf (c :: rest) then
      acc.reverse :: pySplitFuel sep n ((c :: rest).drop sep.length) []
    else
      pySplitFuel sep n rest (c :: acc)

/-- Python `s.split(sep)` for a non-empty separator (Python raises on an
empty separator; the code never passes one, we return `[s]` there). -/
def pySplit (s sep : String) : List String :=
  if sep.data.isEmpty then [s]
  else (pySplitFuel sep.data (s.data.length + 1) s.data []).map String.mk

/-- Python `s.split(sep, maxsplit)`: at most `maxsplit` splits, the last
piece keeps the remaining separators. -/
def pySplitLimit (s sep : String) (maxsplit : Nat) : List String :=
  match maxsplit with
  | 0 => [s]
  | Nat.succ n =>
    match pySplit s sep with
    | [] => [s]
    | [x] => [x]
    | x :: rest => x :: pySplitLimit (String.intercalate sep rest) sep n

/-- Python `sub in s` for a multi-character `sub` (non-empty in all uses):
`sub` occurs in `s` iff splitting on it yields more than one piece. -/
def pyContains (s sub : String) : Bool :=
  (pySplit s sub).length != 1

/-- Python `len(s)`: the number of code points. -/
def pyLen (s : String) : Nat :=
  s.data.length

/-- Python `s.lower()` (ASCII case mapping suffices for this code). -/
def pyLower (s : String) : String :=
  String.mk (s.data.map Char.toLower)

/-- Python `s.upper()`. -/
def pyUpper (s : String) : String :=
  String.mk (s.data.map Char.toUpper)

/-- Python `s.strip()`: drop whitespace from both ends. -/
def pyStrip (s : String) : String :=
  String.mk (((s.data.dropWhile Char.isWhitespace).reverse.dropWhile Char.isWhitespace).reverse)

/-- Python `s.startswith(p)`. -/
def pyStartsWith (s p : String) : Bool :=
  p.data.isPrefixOf s.data

/-- Python `s.endswith(p)`. -/
def pyEndsWith (s p : String) : Bool :=
  p.data.isSuffixOf s.data

/-- Python `s[n:]` (by code points). -/
def pyDrop (s : String) (n : Nat) : String :=
  String.mk (s.data.drop n)

/-- Python `s[:-n]` generalized: drop `n` characters from the right. -/
def pyDropRight (s : String) (n : Nat) : String :=
  String.mk (s.data.take (s.data.length - n))

/-- Python `s.replace(old, new)` for a non-empty `old`: replace every
occurrence (the code only ever has one occurrence to replace). -/
def pyReplace (s old new : String) : String :=
  String.intercalate new (pySplit s old)

/-! ## Python dictionaries as insertion-ordered association lists -/

/-- `d[k] = v`: update in place if the key exists, append otherwise. -/
def dictSet {κ α : Type} [BEq κ] (m : List (κ × α)) (k : κ) (v : α) : List (κ × α) :=
  if m.any (fun p => p.1 == k) then
    m.map (fun p => if p.1 == k then (k, v) else p)
  else
    m ++ [(k, v)]

/-- `d[k]` / `k in d`: first (unique) binding of `k`. -/
def dictGet? {κ α : Type} [BEq κ] (m : List (κ × α)) (k : κ) : Option α :=
  (m.find? (fun p => p.1 == k)).map (fun p => p.2)

/-! ## Wire parser (`parse_query_string`, `parse_http_request`) -/

/-- One iteration of the loop in `Thimble.parse_query_string`: a segment
without `=` becomes a key with empty value; otherwise
`key, value = param.split('=')` succeeds only when the split has exactly
two pieces (a Python `ValueError`, i.e. `Option.none`, otherwise). -/
def query_step (query : List (String × String)) (param : String) :
    Option (List (String × String)) :=
  if ¬ pyContainsChar param '=' then
    some (dictSet query param "")
  else
    match pySplit param "=" with
    | [key, value] => some (dictSet query key value)
    | _ => Option.none

/-- `Thimble.parse_query_string`: split on `&`, then process each segment;
a `ValueError` in any segment propagates as `Option.none`. -/
def parse_query_string (query_string : String) : Option (List (String × String)) :=
  (pySplit query_string "&").foldlM query_step []

/-- The parsed request dictionary.  `query` is `Option.none` when the code
never assigns `req['query']` (request-target without `?`). -/
structure Request where
  method : String
  http_version : String
  path : String
  query : Option (List (String × String))
  headers : List (String × String)
  body : String
deriving Repr, DecidableEq

/-- Header lines: from line 1 up to (excluding) the last line, stopping at
the first blank line — the loop `for i in range(1, len(lines) - 1)`. -/
def takeHeaderLines : List String → List String
  | [] => []
  | l :: rest => if l == "" then [] else l :: takeHeaderLines rest

/-- The header loop body: `name, value = line.split(':', 1)` (a line
without `:` raises), keys stripped and lowercased, values stripped. -/
def parseHeaders (ls : List String) : Option (List (String × String)) :=
  ls.foldlM (fun hdrs line =>
    match pySplitLimit line ":" 1 with
    | [name, value] => some (dictSet hdrs (pyLower (pyStrip name)) (pyStrip value))
    | _ => Option.none) []

/-- `Thimble.parse_http_request`.  The input is the UTF-8 decoded request
buffer; `Option.none` models any raised exception (the caller turns it
into a 400).  The empty-buffer assert, the 3-way unpack of
`split(' ', 2)`, the optional query component, the header loop and the
last-line body are translated clause by clause. -/
def parse_http_request (req_buffer : String) : Option Request :=
  if req_buffer == "" then Option.none
  else
    let req_buffer_lines := pySplit req_buffer "\r\n"
    match pySplitLimit (req_buffer_lines.headD "") " " 2 with
    | [method, target, http_version] =>
      let pathQuery : Option (String × Option (List (String × String))) :=
        if ¬ pyContainsChar target '?' then
          some (target, Option.none)
        else
          match pySplitLimit target "?" 1 with
          | [p, qs] => (parse_query_string qs).map (fun q => (p, some q))
          | _ => Option.none
      match pathQuery with
      | Option.none => Option.none
      | some (path, query) =>
        match parseHeaders (takeHeaderLines (req_buffer_lines.drop 1).dropLast) with
        | Option.none => Option.none
        | some headers =>
          some { method := method, http_version := http_version, path := path,
                 query := query, headers := headers,
                 body := req_buffer_lines.getLastD "" }
    | _ => Option.none

/-! ## Python values returned by handlers -/

/-- The scalar Python values this engine manipulates in handler results:
strings, integers and `None`. -/
inductive PyAtom where
  | pstr : String → PyAtom
  | pint : Int → PyAtom
  | pnone : PyAtom
deriving Repr, DecidableEq, BEq

/-- A handler's return value: a scalar or a tuple of scalars (the code
inspects results only with `isinstance(_, tuple)` and `len`). -/
inductive PyVal where
  | atom : PyAtom → PyVal
  | ptuple : List PyAtom → PyVal
deriving Repr, DecidableEq, BEq

/-- The single-quote character, written by code point to keep the source
free of bare apostrophes. -/
def squote : String := String.singleton (Char.ofNat 39)

/-- Python `str` on a scalar. -/
def pyStrAtom : PyAtom → String
  | .pstr s => s
  | .pint n => toString n
  | .pnone => "None"

/-- Python `repr` on a scalar (used inside `str` of a tuple). -/
def pyReprAtom : PyAtom → String
  | .pstr s => squote ++ s ++ squote
  | .pint n => toString n
  | .pnone => "None"

/-- Python `str` on a handler result (`str(body)` in
`send_function_results`); a string stays itself. -/
def pyStrVal : PyVal → String
  | .atom a => pyStrAtom a
  | .ptuple l =>
    "(" ++ String.intercalate ", " (l.map pyReprAtom)
        ++ (if l.length == 1 then ",)" else ")")

/-- `len` of a tuple, `Option.none` on a non-tuple — the shape information
`isinstance(func_result, tuple) and len(func_result) == _` reads off. -/
def tupleLen : PyVal → Option Nat
  | .ptuple l => some l.length
  | .atom _ => Option.none

/-! ## Response formatter (`http_status_line`, `http_headers`) -/

/-- `Thimble.server_name`. -/
def server_name : String := "Thimble (MicroPython)"

/-- `Thimble.http_status_line`: the fixed status table; `None` and every
code outside the table fall back to 500. -/
def http_status_line (status_code : PyAtom) : String :=
  let msg :=
    if status_code == .pint 200 then "200 OK"
    else if status_code == .pint 302 then "302 Found"
    else if status_code == .pint 400 then "400 Bad Request"
    else if status_code == .pint 404 then "404 Not Found"
    else "500 Internal Server Error"
  "HTTP/1.1 " ++ msg ++ "\r\n"

/-- `Thimble.http_headers`: fixed order, `Content-Encoding` and
`Content-Type` only when non-empty, `Content-Length` always. -/
def http_headers (content_length : Nat) (content_type : String)
    (content_encoding : String) : String :=
  "Connection: close\r\n"
  ++ (if content_encoding != "" then "Content-Encoding: " ++ content_encoding ++ "\r\n" else "")
  ++ ("Content-Length: " ++ toString content_length ++ "\r\n")
  ++ (if content_type != "" then "Content-Type: " ++ content_type ++ "\r\n" else "")
  ++ ("Server: " ++ server_name ++ "\r\n")
  ++ "\r\n"

/-! ## Error responses and the result normalizer -/

/-- `self.error_text` as initialized in `__init__`. -/
def error_text : List (Nat × String) :=
  [(400, "400: Bad Request"), (404, "404: Not Found"),
   (500, "500: Internal Server Error")]

/-- `Thimble.send_error`: the bytes written for a canned error page.
`Option.none` models the `KeyError` on a code outside `error_text`
(never reached by the engine, which only passes 400, 404 and 500). -/
def send_error (error_number : Nat) : Option String :=
  (dictGet? error_text error_number).map (fun msg =>
    let et := msg ++ "\r\n"
    http_status_line (.pint (Int.ofNat error_number))
      ++ http_headers (pyLen et) "text/plain" "" ++ et)

/-- The default value of the `default_content_type` parameter of
`Thimble.__init__`. -/
def init_default_content_type : String := "application/octet-stream"

/-- The result-shape dispatch of `send_function_results`: a 3-tuple is
used verbatim, a 2-tuple gets content type `'text/plain'`, anything else
becomes the body with status 200 and `'text/plain'`. -/
def normalize_result : PyVal → PyVal × PyAtom × PyAtom
  | .ptuple [b, s, ct] => (.atom b, s, ct)
  | .ptuple [b, s] => (.atom b, s, .pstr "text/plain")
  | r => (r, .pint 200, .pstr "text/plain")

/-- A route handler.  The wildcard argument is `some _` exactly when the
route resolved through a pattern; `Except.error` models an exception
raised while the handler runs.  (The sync/async distinction of
`Thimble.is_async` only decides whether the call is awaited and does not
affect the produced value, so both calling conventions share this type.) -/
def Handler : Type := Request → Option String → Except String PyVal

/-- `Thimble.send_function_results`: run the handler, catch any exception
as a fixed 500 page, otherwise normalize the result and format the
response.  The returned string is everything written to the stream. -/
def send_function_results (func : Handler) (req : Request)
    (url_wildcard : Option String) : Option String :=
  match func req url_wildcard with
  | .error _ => send_error 500
  | .ok func_result =>
    let nr := normalize_result func_result
    let body := pyStrVal nr.1
    some (http_status_line nr.2.1
      ++ http_headers (pyLen body) (pyStrAtom nr.2.2) ""
      ++ body)

/-! ## Route registration (`Thimble.route`)

The decorator substitutes one bracketed macro (`<digit>`, `<float>`,
`<int>`, `<string>`) with a single-capture regex fragment and stores the
handler under `method.upper() + url_path` for each listed method. -/

/-- The `regex_macros` table of `Thimble.route`. -/
def regex_macros : List (String × String) :=
  [("<digit>", "([0-9])"),
   ("<float>", "([-+]?[0-9]*\\.?[0-9]+)"),
   ("<int>", "([0-9]+)"),
   ("<string>", "(.*)")]

/-- Index of the last `>` in a character list, scanning left to right. -/
def lastGtIdx (seg : List Char) : Option Nat :=
  (List.range seg.length).foldl
    (fun acc i => if seg.get? i == some '>' then some i else acc) Option.none

/-- `re.search('(<.*>)', url_path)`: the match starts at the leftmost `<`
followed (with no intervening newline, since `.` excludes `\n`) by a `>`,
and the greedy `.*` extends the capture to the last such `>`. -/
def macroCapture : List Char → Option (List Char)
  | [] => Option.none
  | c :: rest =>
    if c == '<' then
      let seg := rest.takeWhile (fun x => x != '\n')
      match lastGtIdx seg with
      | some j => some ('<' :: seg.take (j + 1))
      | Option.none => macroCapture rest
    else
      macroCapture rest

/-- The macro substitution performed by `Thimble.route` before storing:
`Option.none` models the `KeyError` when the captured text is not a known
macro. -/
def macroSubst (url_path : String) : Option String :=
  match macroCapture url_path.data with
  | Option.none => some url_path
  | some cap =>
    match dictGet? regex_macros (String.mk cap) with
    | some pat => some (pyReplace url_path (String.mk cap) pat)
    | Option.none => Option.none

/-- `Thimble.route(url_path, methods)` applied to handler `func`: one
entry per method keyed by `method.upper() + substituted_path`. -/
def route {α : Type} (routes : List (String × α)) (url_path : String)
    (methods : List String) (func : α) : Option (List (String × α)) :=
  (macroSubst url_path).map (fun p =>
    methods.foldl (fun rs m => dictSet rs (pyUpper m ++ p) func) routes)

/-! ## The anchored pattern match of `resolve_route`

`resolve_route` runs `re.search('^' + stored_route + '$', candidate)` on
every stored key.  The keys this engine produces are a literal part with
at most one capture group taken from `regex_macros`, so the regex call is
modelled exactly on that pattern language: a key decomposes as
`prefix ++ group ++ suffix` around the first group fragment (the literal
parts of the repository's routes contain no regex metacharacters and are
matched verbatim, like `re` matches them). -/

/-- All digits (`[0-9]`, ASCII) and non-empty. -/
def digitsNonempty (s : String) : Bool :=
  s != "" && s.data.all Char.isDigit

/-- All digits, possibly empty. -/
def digitsMaybeEmpty (s : String) : Bool :=
  s.data.all Char.isDigit

/-- Full match of `[0-9]*\.?[0-9]+`. -/
def matchesUnsignedFloat (s : String) : Bool :=
  match pySplit s "." with
  | [a] => digitsNonempty a
  | [a, b] => digitsMaybeEmpty a && digitsNonempty b
  | _ => false

/-- Full match of `[-+]?[0-9]*\.?[0-9]+`. -/
def matchesFloat (s : String) : Bool :=
  match s.data with
  | [] => false
  | c :: rest =>
    if c == '-' || c == '+' then matchesUnsignedFloat (String.mk rest)
    else matchesUnsignedFloat s

/-- Does the capture-group fragment `g` fully match the text `s`? -/
def groupMatches (g s : String) : Bool :=
  if g == "([0-9])" then pyLen s == 1 && digitsMaybeEmpty s
  else if g == "([0-9]+)" then digitsNonempty s
  else if g == "([-+]?[0-9]*\\.?[0-9]+)" then matchesFloat s
  else if g == "(.*)" then s.data.all (fun c => c != '\n')
  else false

/-- Split `key` at the first occurrence of `g`, keeping any later
occurrences in the suffix. -/
def splitFirst (key g : String) : Option (String × String) :=
  match pySplit key g with
  | [] => Option.none
  | [_] => Option.none
  | p :: rest => some (p, String.intercalate g rest)

/-- Locate the one capture group of a stored key: its literal prefix, the
group fragment, and the literal suffix. -/
def findGroup (key : String) : Option (String × String × String) :=
  (regex_macros.map (fun p => p.2)).foldl
    (fun acc g =>
      match acc with
      | some r => some r
      | Option.none => (splitFirst key g).map (fun pr => (pr.1, g, pr.2)))
    Option.none

/-- `re.search('^' + stored + '$', candidate)` on this engine's pattern
language.  `Option.none`: no match.  `some Option.none`: a match with no
capture group (a group-less key, on which `regex_match.group(1)` then
raises `IndexError`).  `some (some w)`: a match capturing `w`.  With both
ends anchored and the literal prefix/suffix fixed, the group text is
forced to be the middle of the candidate. -/
def regex_search_anchored (stored candidate : String) : Option (Option String) :=
  match findGroup stored with
  | Option.none =>
    if candidate == stored then some Option.none else Option.none
  | some (pre, g, suf) =>
    if pyStartsWith candidate pre ∧ pyEndsWith candidate suf
        ∧ pyLen pre + pyLen suf ≤ pyLen candidate then
      let middle := pyDropRight (pyDrop candidate (pyLen pre)) (pyLen suf)
      if groupMatches g middle then some (some middle) else Option.none
    else
      Option.none

/-! ## Route resolution (`Thimble.resolve_route`) -/

/-- The three possible values `resolve_route` returns: `None`, a bare
handler (exact key hit) or a `(handler, capture)` pair. -/
inductive RouteMatch (α : Type) where
  | noMatch : RouteMatch α
  | found : α → RouteMatch α
  | captured : α → String → RouteMatch α
deriving Repr, DecidableEq

/-- One iteration of the scan in `resolve_route`: no regex match keeps the
current result, a group-less match raises (`group(1)` → `IndexError`,
i.e. `Option.none`), and a capturing match overwrites the result — the
loop has no `break`. -/
def resolve_step {α : Type} (candidate : String) (result : RouteMatch α)
    (entry : String × α) : Option (RouteMatch α) :=
  match regex_search_anchored entry.1 candidate with
  | Option.none => some result
  | some Option.none => Option.none
  | some (some w) => some (.captured entry.2 w)

/-- `Thimble.resolve_route`: an exact dictionary hit short-circuits;
otherwise every stored key is tried in insertion order and each match
overwrites `result`. -/
def resolve_route {α : Type} (routes : List (String × α)) (candidate : String) :
    Option (RouteMatch α) :=
  match routes.find? (fun p => p.1 == candidate) with
  | some p => some (.found p.2)
  | Option.none => routes.foldlM (resolve_step candidate) .noMatch

/-! ## Static file delivery -/

/-- The filesystem as seen through `stat`/`open`: a mapping from path to
file contents (a string of bytes; the file sizes reported by `stat` are
the content lengths). -/
structure FileSystem where
  files : List (String × String)
deriving Repr

/-- `Thimble.file_size`: the size from `stat`, `None` when the file does
not exist. -/
def file_size (fs : FileSystem) (file_path : String) : Option Nat :=
  (dictGet? fs.files file_path).map pyLen

/-- `self.media_types` as initialized in `__init__`. -/
def media_types : List (String × String) :=
  [("css", "text/css"), ("html", "text/html"),
   ("ico", "image/vnd.microsoft.icon"), ("jpg", "image/jpeg"),
   ("js", "text/javascript"), ("json", "application/json"),
   ("otf", "font/otf"), ("png", "image/png"), ("svg", "image/svg+xml"),
   ("ttf", "font/ttf"), ("txt", "text/plain"), ("woff", "font/woff"),
   ("woff2", "font/woff2")]

/-- `Thimble.file_type`: the media type of `file_path.split('.')[-1]`,
falling back to the configured default content type. -/
def file_type (default_content_type : String) (file_path : String) : String :=
  let file_ext := (pySplit file_path ".").getLastD ""
  match dictGet? media_types file_ext with
  | Option.none => default_content_type
  | some t => t

/-- The gzip acceptance test of `send_file_contents`:
`'accept-encoding' in req['headers'] and 'gzip' in
req['headers']['accept-encoding'].lower()`. -/
def accepts_gzip (req : Request) : Bool :=
  match dictGet? req.headers "accept-encoding" with
  | some v => pyContains (pyLower v) "gzip"
  | Option.none => false

/-- `Thimble.send_file_contents`: prefer the `.gzip` sibling when it
exists and the client accepts gzip, else the plain file, else a 404.  The
chunked read loop concatenates to the full file contents, which is what
the returned string records. -/
def send_file_contents (fs : FileSystem) (default_content_type : String)
    (file_path : String) (req : Request) : Option String :=
  let file_gzip_size := file_size fs (file_path ++ ".gzip")
  let fsize := file_size fs file_path
  let ftype := file_type default_content_type file_path
  match file_gzip_size, accepts_gzip req with
  | some gz, true =>
    some (http_status_line (.pint 200) ++ http_headers gz ftype "gzip"
      ++ (dictGet? fs.files (file_path ++ ".gzip")).getD "")
  | _, _ =>
    match fsize with
    | some sz =>
      some (http_status_line (.pint 200) ++ http_headers sz ftype ""
        ++ (dictGet? fs.files file_path).getD "")
    | Option.none => send_error 404

/-! ## Per-connection pipeline (`Thimble.on_connect`) -/

/-- The default values of `self.static_folder` and
`self.directory_index`. -/
def init_static_folder : String := "/static"

/-- See `init_static_folder`. -/
def init_directory_index : String := "index.html"

/-- `Thimble.on_connect` on one already-read request buffer: parse (a
failure becomes a 400), resolve the route, dispatch to the handler or
fall back to static content.  The result is everything written to the
client; `Option.none` models an exception escaping the handler-free part
of the pipeline (the `IndexError` of a group-less regex match). -/
def on_connect (routes : List (String × Handler)) (fs : FileSystem)
    (default_content_type static_folder directory_index : String)
    (req_buffer : String) : Option String :=
  match parse_http_request req_buffer with
  | Option.none => send_error 400
  | some req =>
    match resolve_route routes (req.method ++ req.path) with
    | Option.none => Option.none
    | some (.captured f w) => send_function_results f req (some w)
    | some (.found f) => send_function_results f req Option.none
    | some .noMatch =>
      let fp := static_folder ++ req.path
      let fp := if pyEndsWith fp "/" then fp ++ directory_index else fp
      send_file_contents fs default_content_type fp req

/-! ## Helper lemmas about the resolution scan -/

/-- Entries whose pattern does not match leave the scan result unchanged. -/
theorem resolve_scan_skip {α : Type} (c : String) (l : List (String × α))
    (h : ∀ p ∈ l, regex_search_anchored p.1 c = Option.none) (r : RouteMatch α) :
    l.foldlM (resolve_step c) r = some r := by
  induction l with
  | nil => rfl
  | cons p t ih =>
    rw [List.foldlM_cons]
    have hp : resolve_step c r p = some r := by
      unfold resolve_step
      rw [h p (List.mem_cons_self p t)]
    rw [hp]
    exact ih (fun q hq => h q (List.mem_cons_of_mem p hq))

/-- As long as no entry raises (`group(1)` on a group-less match), the
scan completes with some result. -/
theorem resolve_scan_total {α : Type} (c : String) (l : List (String × α))
    (h : ∀ p ∈ l, regex_search_anchored p.1 c ≠ some Option.none) :
    ∀ r : RouteMatch α, ∃ res, l.foldlM (resolve_step c) r = some res := by
  induction l with
  | nil => exact fun r => ⟨r, rfl⟩
  | cons p t ih =>
    intro r
    have hp := h p (List.mem_cons_self p t)
    have ih' := ih (fun q hq => h q (List.mem_cons_of_mem p hq))
    rw [List.foldlM_cons]
    unfold resolve_step
    cases hm : regex_search_anchored p.1 c with
    | none => exact ih' r
    | some o =>
      cases o with
      | none => exact absurd hm hp
      | some w => exact ih' (.captured p.2 w)

/-- Demonstration route table for the resolution-order claims: the
wildcard route `GET /gpio/<int>` (handler 1) registered before the
overlapping wildcard route `GET /gpio/<string>` (handler 2). -/
def c1_routes : List (String × Nat) :=
  ((route ([] : List (String × Nat)) "/gpio/<int>" ["GET"] 1).bind
    (fun r => route r "/gpio/<string>" ["GET"] 2)).getD []

/-- C1 counterexample: both wildcard patterns match `GET/gpio/7`, the
first-registered pattern captures `"7"` as well, yet resolution returns
the handler of the *second* pattern — the scan has no `break`, so the
first matching pattern does not win. -/
theorem C1_first_pattern_does_not_win :
    c1_routes = [("GET/gpio/([0-9]+)", 1), ("GET/gpio/(.*)", 2)] ∧
    regex_search_anchored "GET/gpio/([0-9]+)" "GET/gpio/7" = some (some "7") ∧
    resolve_route c1_routes "GET/gpio/7" = some (RouteMatch.captured 2 "7") ∧
    RouteMatch.captured 2 "7" ≠ RouteMatch.captured 1 "7" := by
  refine ⟨by decide, by decide, by decide, by decide⟩

/-- C1 (amended): when several wildcard patterns match a key that has no
exact entry, the LAST matching pattern in registration order wins: the
scan keeps overwriting its result, so a final run of non-matching
entries after the last match leaves that match in place (provided no
earlier entry is a group-less matching pattern, which would raise). -/
theorem C1_resolve_route_last_match_wins {α : Type}
    (r₁ r₂ : List (String × α)) (kB : String) (fB : α) (c w : String)
    (hex : (r₁ ++ (kB, fB) :: r₂).find? (fun p => p.1 == c) = Option.none)
    (h₁ : ∀ p ∈ r₁, regex_search_anchored p.1 c ≠ some Option.none)
    (hB : regex_search_anchored kB c = some (some w))
    (h₂ : ∀ p ∈ r₂, regex_search_anchored p.1 c = Option.none) :
    resolve_route (r₁ ++ (kB, fB) :: r₂) c = some (RouteMatch.captured fB w) := by
  unfold resolve_route
  rw [hex, List.foldlM_append]
  obtain ⟨res, hres⟩ := resolve_scan_total c r₁ h₁ .noMatch
  rw [hres]
  show ((kB, fB) :: r₂).foldlM (resolve_step c) res = _
  rw [List.foldlM_cons]
  have hstep : resolve_step c res (kB, fB) = some (.captured fB w) := by
    unfold resolve_step
    rw [hB]
  rw [hstep]
  exact resolve_scan_skip c r₂ h₂ _

/-- C1 witness: the amended theorem applied to the demonstration table —
`GET/gpio/7` resolves to handler 2, the second-registered pattern. -/
theorem C1_witness :
    resolve_route ([("GET/gpio/([0-9]+)", 1)] ++ ("GET/gpio/(.*)", 2) :: []) "GET/gpio/7"
      = some (RouteMatch.captured 2 "7") :=
  C1_resolve_route_last_match_wins [("GET/gpio/([0-9]+)", 1)] [] "GET/gpio/(.*)" 2
    "GET/gpio/7" "7" (by decide) (by decide) (by decide) (by decide)

/-- C7: a literal entry whose key equals the lookup key resolves to that
entry's handler with no capture — the dictionary hit short-circuits the
wildcard scan entirely, so no wildcard handler can be returned. -/
theorem C7_exact_match_precedence {α : Type} (routes : List (String × α))
    (c : String) (p : String × α)
    (h : routes.find? (fun q => q.1 == c) = some p) :
    resolve_route routes c = some (RouteMatch.found p.2) := by
  unfold resolve_route
  rw [h]

/-- Demonstration table for C7: literal `GET /gpio/2` (handler 1)
alongside the overlapping wildcard `GET /gpio/<int>` (handler 2). -/
def c7_routes : List (String × Nat) :=
  ((route ([] : List (String × Nat)) "/gpio/2" ["GET"] 1).bind
    (fun r => route r "/gpio/<int>" ["GET"] 2)).getD []

/-- C7 witness: `GET/gpio/2` hits the literal entry and returns handler 1
without a capture, although the wildcard pattern also matches the key. -/
theorem C7_witness :
    resolve_route c7_routes "GET/gpio/2" = some (RouteMatch.found 1) ∧
    regex_search_anchored "GET/gpio/([0-9]+)" "GET/gpio/2" = some (some "2") :=
  ⟨C7_exact_match_precedence c7_routes "GET/gpio/2" ("GET/gpio/2", 1) (by decide),
   by decide⟩

/-- C2 counterexample: a first line with four space-separated tokens does
NOT fail — `split(' ', 2)` caps the split at three pieces, so the parse
succeeds and the protocol-version field receives `"HTTP/1.1 X"`. -/
theorem C2_extra_token_still_parses :
    (pySplit "GET /a HTTP/1.1 X" " ").length = 4 ∧
    parse_http_request "GET /a HTTP/1.1 X\r\n\r\n" =
      some { method := "GET", http_version := "HTTP/1.1 X", path := "/a",
             query := Option.none, headers := [], body := "" } := by
  refine ⟨by decide, by decide⟩

/-- C2 (amended): a first line that yields fewer than three pieces under
`split(' ', 2)` is a parse failure; with more than three raw tokens the
parse does not fail on that account, the remainder simply stays in the
protocol-version field (see the counterexample). -/
theorem C2_short_request_line_fails (buf : String)
    (h : (pySplitLimit ((pySplit buf "\r\n").headD "") " " 2).length ≠ 3) :
    parse_http_request buf = Option.none := by
  unfold parse_http_request
  split
  · rfl
  · dsimp only
    split
    · next m t v heq =>
      exact absurd (by rw [heq]; rfl) h
    · rfl

/-- C2 witness: a two-token request line fails to parse. -/
theorem C2_witness : parse_http_request "GET /a\r\n\r\n" = Option.none :=
  C2_short_request_line_fails "GET /a\r\n\r\n" (by decide)

/-- C3 counterexample: a two-element handler return gets the hard-coded
content type `'text/plain'`, not the engine's configured default content
type (`'application/octet-stream'` unless overridden) — the configured
default plays no role in result normalization. -/
theorem C3_default_is_not_configured_default :
    normalize_result (.ptuple [.pstr "hi", .pint 200])
      = (.atom (.pstr "hi"), .pint 200, .pstr "text/plain") ∧
    ("text/plain" : String) ≠ init_default_content_type := by
  refine ⟨rfl, by decide⟩

/-- C3 (amended): a three-element return is used verbatim as
(body, status, content-type); a two-element return is (body, status) with
content type the fixed string `'text/plain'`; any other value becomes the
whole body with status 200 and `'text/plain'`; and the body is passed to
the formatter through Python `str`, so a non-string body is converted to
its textual representation. -/
theorem C3_normalization_spec :
    (∀ b s ct, normalize_result (.ptuple [b, s, ct]) = (.atom b, s, ct)) ∧
    (∀ b s, normalize_result (.ptuple [b, s]) = (.atom b, s, .pstr "text/plain")) ∧
    (∀ r, tupleLen r ≠ some 2 → tupleLen r ≠ some 3 →
       normalize_result r = (r, .pint 200, .pstr "text/plain")) ∧
    (∀ (f : Handler) req w r, f req w = Except.ok r →
       send_function_results f req w =
         some (http_status_line (normalize_result r).2.1
           ++ http_headers (pyLen (pyStrVal (normalize_result r).1))
                (pyStrAtom (normalize_result r).2.2) ""
           ++ pyStrVal (normalize_result r).1)) := by
  refine ⟨fun b s ct => rfl, fun b s => rfl, ?_, ?_⟩
  · intro r h2 h3
    match r with
    | .atom _ => rfl
    | .ptuple [] => rfl
    | .ptuple [_] => rfl
    | .ptuple [_, _] => exact absurd rfl h2
    | .ptuple [_, _, _] => exact absurd rfl h3
    | .ptuple (_ :: _ :: _ :: _ :: _) => rfl
  · intro f req w r h
    unfold send_function_results
    rw [h]

/-- C3 witness: a bare integer result becomes the whole body with status
200, content type `'text/plain'`, and is stringified to `"42"`. -/
theorem C3_witness :
    normalize_result (.atom (.pint 42)) = (.atom (.pint 42), .pint 200, .pstr "text/plain") ∧
    pyStrVal (.atom (.pint 42)) = "42" :=
  ⟨C3_normalization_spec.2.2.1 (.atom (.pint 42)) (by decide) (by decide), by decide⟩

/-- C4 counterexample: a segment whose value contains a further `=` does
not map the text before the first `=` to the rest — the bare
`key, value = param.split('=')` raises a `ValueError` instead, so the
whole query parse fails. -/
theorem C4_second_equals_fails :
    parse_query_string "a=b=c" = Option.none ∧
    (Option.none : Option (List (String × String))) ≠ some [("a", "b=c")] := by
  refine ⟨by decide, by decide⟩

/-- C4 (amended): per segment of the `&`-split, a segment without `=`
maps the whole segment to the empty string; a segment with exactly one
`=` maps the part before it to the part after it; a segment with two or
more `=` characters raises (the parse fails).  `parse_query_string`
folds this step over the segments. -/
theorem C4_query_segment_spec :
    (∀ q param, pyContainsChar param '=' = false →
       query_step q param = some (dictSet q param "")) ∧
    (∀ q param k v, pyContainsChar param '=' = true → pySplit param "=" = [k, v] →
       query_step q param = some (dictSet q k v)) ∧
    (∀ q param, pyContainsChar param '=' = true → 3 ≤ (pySplit param "=").length →
       query_step q param = Option.none) ∧
    (∀ qs, parse_query_string qs = (pySplit qs "&").foldlM query_step []) := by
  refine ⟨?_, ?_, ?_, fun qs => rfl⟩
  · intro q param h
    unfold query_step
    rw [h]
    rfl
  · intro q param k v h hs
    unfold query_step
    rw [h, hs]
    rfl
  · intro q param h hl
    unfold query_step
    rw [h]
    cases hs : pySplit param "=" with
    | nil => rw [hs] at hl; simp at hl
    | cons a t =>
      cases t with
      | nil => rw [hs] at hl; simp at hl
      | cons b t' =>
        cases t' with
        | nil => rw [hs] at hl; simp at hl
        | cons c t'' => rfl

/-- C4 witness: `pet=panda` maps `pet` to `panda`; `red` maps to the
empty string; `a=b=c` fails. -/
theorem C4_witness :
    query_step [] "pet=panda" = some [("pet", "panda")] ∧
    query_step [] "red" = some [("red", "")] ∧
    query_step [] "a=b=c" = Option.none :=
  ⟨C4_query_segment_spec.2.1 [] "pet=panda" "pet" "panda" (by decide) (by decide),
   C4_query_segment_spec.1 [] "red" (by decide),
   C4_query_segment_spec.2.2.1 [] "a=b=c" (by decide) (by decide)⟩

/-- C5: a handler that raises is caught at the normalizer boundary: the
client receives exactly the canned 500 page and `send_function_results`
still returns a written response (no exception escapes), so a handler
failure cannot take down the connection loop. -/
theorem C5_handler_error_yields_500 (f : Handler) (req : Request)
    (w : Option String) (e : String) (h : f req w = Except.error e) :
    send_function_results f req w = send_error 500 ∧
    send_error 500 = some ("HTTP/1.1 500 Internal Server Error\r\n"
      ++ http_headers 28 "text/plain" "" ++ "500: Internal Server Error\r\n") := by
  constructor
  · unfold send_function_results
    rw [h]
  · decide

/-- C5 witness: a concrete always-raising handler produces the 500 page. -/
theorem C5_witness :
    send_function_results (fun _ _ => Except.error "boom")
      { method := "GET", http_version := "HTTP/1.1", path := "/x",
        query := Option.none, headers := [], body := "" } Option.none
      = send_error 500 ∧
    send_error 500 = some ("HTTP/1.1 500 Internal Server Error\r\n"
      ++ http_headers 28 "text/plain" "" ++ "500: Internal Server Error\r\n") :=
  C5_handler_error_yields_500 (fun _ _ => Except.error "boom") _ Option.none "boom" rfl

/-- C6: the static-file fallback serves the gzip sibling (with
`Content-Encoding: gzip` and the sibling's own size) exactly when the
sibling exists and the request's `Accept-Encoding` value contains
`"gzip"` case-insensitively; otherwise the plain file when it exists;
otherwise the 404 page. -/
theorem C6_static_gzip_negotiation (fs : FileSystem) (dct fp : String) (req : Request) :
    (∀ gz, file_size fs (fp ++ ".gzip") = some gz → accepts_gzip req = true →
       send_file_contents fs dct fp req =
         some (http_status_line (.pint 200) ++ http_headers gz (file_type dct fp) "gzip"
           ++ (dictGet? fs.files (fp ++ ".gzip")).getD "")) ∧
    (∀ sz, (file_size fs (fp ++ ".gzip") = Option.none ∨ accepts_gzip req = false) →
       file_size fs fp = some sz →
       send_file_contents fs dct fp req =
         some (http_status_line (.pint 200) ++ http_headers sz (file_type dct fp) ""
           ++ (dictGet? fs.files fp).getD "")) ∧
    ((file_size fs (fp ++ ".gzip") = Option.none ∨ accepts_gzip req = false) →
       file_size fs fp = Option.none →
       send_file_contents fs dct fp req = send_error 404) := by
  refine ⟨?_, ?_, ?_⟩
  · intro gz h1 h2
    unfold send_file_contents
    dsimp only
    rw [h1, h2]
  · intro sz hgz hsz
    unfold send_file_contents
    dsimp only
    rcases hgz with hgz | hgz
    · cases hb : accepts_gzip req <;> rw [hgz, hsz]
    · cases hgzs : file_size fs (fp ++ ".gzip") <;> rw [hgz, hsz]
  · intro hgz hsz
    unfold send_file_contents
    dsimp only
    rcases hgz with hgz | hgz
    · cases hb : accepts_gzip req <;> rw [hgz, hsz]
    · cases hgzs : file_size fs (fp ++ ".gzip") <;> rw [hgz, hsz]

/-- Demonstration filesystem: an index page and its pre-compressed
sibling under the default static root. -/
def demo_fs : FileSystem :=
  ⟨[("/static/index.html", "<html>hi</html>"),
    ("/static/index.html.gzip", "GZBYTES")]⟩

/-- A request advertising gzip support with mixed case. -/
def demo_req_gzip : Request :=
  { method := "GET", http_version := "HTTP/1.1", path := "/",
    query := Option.none, headers := [("accept-encoding", "GZip, deflate")],
    body := "" }

/-- C6 witness: with both files present and `Accept-Encoding: GZip,
deflate` (mixed case), the gzip sibling is served with its own size 7. -/
theorem C6_witness :
    send_file_contents demo_fs init_default_content_type "/static/index.html" demo_req_gzip
      = some (http_status_line (.pint 200)
          ++ http_headers 7 (file_type init_default_content_type "/static/index.html") "gzip"
          ++ (dictGet? demo_fs.files "/static/index.html.gzip").getD "") :=
  (C6_static_gzip_negotiation demo_fs init_default_content_type
      "/static/index.html" demo_req_gzip).1 7 (by decide) (by decide)

/-- C8 counterexample: a request whose target has no `?` parses with NO
query component at all (the `query` key is never assigned), which is not
the same thing as a present-but-empty mapping. -/
theorem C8_query_component_absent :
    (parse_http_request "GET / HTTP/1.1\r\n\r\n").map Request.query = some Option.none ∧
    some (Option.none : Option (List (String × String))) ≠ some (some []) := by
  refine ⟨by decide, by decide⟩

/-- C8 (amended): whenever parsing succeeds on a buffer whose
request-target contains no `?`, the parsed request has no query
component (`req['query']` is absent, `Option.none` here), rather than an
empty mapping. -/
theorem C8_no_query_key_without_qmark (buf m t v : String) (req : Request)
    (hsplit : pySplitLimit ((pySplit buf "\r\n").headD "") " " 2 = [m, t, v])
    (ht : pyContainsChar t '?' = false)
    (hp : parse_http_request buf = some req) :
    req.query = Option.none := by
  unfold parse_http_request at hp
  by_cases hb : (buf == "") = true
  · rw [if_pos hb] at hp
    exact absurd hp (by simp)
  · rw [if_neg hb] at hp
    dsimp only at hp
    rw [hsplit] at hp
    simp only [ht, Bool.false_eq_true, not_false_iff, if_pos] at hp
    cases hh : parseHeaders (takeHeaderLines (List.drop 1 (pySplit buf "\r\n")).dropLast) with
    | none => rw [hh] at hp; exact absurd hp (by simp)
    | some hdrs =>
      rw [hh] at hp
      have := Option.some.inj hp
      rw [← this]

/-- C8 witness: the amended theorem at a concrete no-query request. -/
theorem C8_witness :
    ({ method := "GET", http_version := "HTTP/1.1", path := "/",
       query := Option.none, headers := [], body := "" } : Request).query
      = Option.none :=
  C8_no_query_key_without_qmark "GET / HTTP/1.1\r\n\r\n" "GET" "/" "HTTP/1.1"
    _ (by decide) (by decide) (by decide)

/-- C9 counterexample: for the one-character body `"é"` the emitted
header says `Content-Length: 1` (Python `len` counts code points), but
the UTF-8 encoding of the body that goes on the wire is 2 bytes — the
header value is not the byte length of the body. -/
theorem C9_content_length_not_bytes :
    send_function_results (fun _ _ => Except.ok (.atom (.pstr "é")))
      { method := "GET", http_version := "HTTP/1.1", path := "/x",
        query := Option.none, headers := [], body := "" } Option.none
      = some ("HTTP/1.1 200 OK\r\n"
          ++ "Connection: close\r\n" ++ "Content-Length: 1\r\n"
          ++ "Content-Type: text/plain\r\n"
          ++ "Server: Thimble (MicroPython)\r\n" ++ "\r\n" ++ "é") ∧
    pyLen "é" = 1 ∧ String.utf8ByteSize "é" = 2 := by
  refine ⟨by decide, by decide, by rfl⟩

/-- C9 (amended): every formatted response carries exactly one
`Content-Length` line, always present, whose value is the `len` of the
body — the number of code points, which coincides with the byte length
only for bodies whose characters are single-byte — and 0 when no body
length is supplied. -/
theorem C9_content_length_always_emitted :
    (∀ cl ct ce, ∃ pre post, http_headers cl ct ce =
       pre ++ ("Content-Length: " ++ toString cl ++ "\r\n") ++ post) ∧
    (∀ (f : Handler) req w r, f req w = Except.ok r →
       ∃ pre post, send_function_results f req w =
         some (pre ++ ("Content-Length: "
            ++ toString (pyLen (pyStrVal (normalize_result r).1)) ++ "\r\n") ++ post)) := by
  constructor
  · intro cl ct ce
    refine ⟨"Connection: close\r\n"
        ++ (if ce != "" then "Content-Encoding: " ++ ce ++ "\r\n" else ""),
      (if ct != "" then "Content-Type: " ++ ct ++ "\r\n" else "")
        ++ ("Server: " ++ server_name ++ "\r\n") ++ "\r\n", ?_⟩
    unfold http_headers
    simp only [String.append_assoc]
  · intro f req w r h
    refine ⟨http_status_line (normalize_result r).2.1 ++ "Connection: close\r\n", ?_, ?_⟩
    case refine_1 =>
      exact (if pyStrAtom (normalize_result r).2.2 != "" then
          "Content-Type: " ++ pyStrAtom (normalize_result r).2.2 ++ "\r\n" else "")
        ++ ("Server: " ++ server_name ++ "\r\n") ++ "\r\n"
        ++ pyStrVal (normalize_result r).1
    case refine_2 =>
      unfold send_function_results
      rw [h]
      dsimp only
      unfold http_headers
      simp only [String.append_assoc]
      rfl

/-- C9 witness: the amended theorem at a concrete handler returning the
three-character body `"abc"`. -/
theorem C9_witness :
    ∃ pre post, send_function_results (fun _ _ => Except.ok (.atom (.pstr "abc")))
      { method := "GET", http_version := "HTTP/1.1", path := "/x",
        query := Option.none, headers := [], body := "" } Option.none
      = some (pre ++ ("Content-Length: "
          ++ toString (pyLen (pyStrVal (normalize_result (.atom (.pstr "abc"))).1))
          ++ "\r\n") ++ post) :=
  C9_content_length_always_emitted.2 (fun _ _ => Except.ok (.atom (.pstr "abc")))
    _ Option.none (.atom (.pstr "abc")) rfl

/-- C10: when the gzip sibling is served, the `Content-Type` is computed
by `file_type` on the ORIGINAL path, so `index.html.gzip` goes out as
`text/html`; looking the sibling's own name up instead would have
produced the configured default type, because `gzip` is not in the
media-type table. -/
theorem C10_gzip_media_type_from_original (fs : FileSystem) (dct fp : String)
    (req : Request) (gz : Nat)
    (h1 : file_size fs (fp ++ ".gzip") = some gz)
    (h2 : accepts_gzip req = true) :
    send_file_contents fs dct fp req =
      some (http_status_line (.pint 200) ++ http_headers gz (file_type dct fp) "gzip"
        ++ (dictGet? fs.files (fp ++ ".gzip")).getD "") ∧
    file_type init_default_content_type "/static/index.html" = "text/html" ∧
    file_type init_default_content_type "/static/index.html.gzip"
      = init_default_content_type := by
  refine ⟨?_, by decide, by decide⟩
  unfold send_file_contents
  dsimp only
  rw [h1, h2]

/-- Second demonstration filesystem, for the C10 witness: a stylesheet
and its gzip sibling. -/
def demo_fs_css : FileSystem :=
  ⟨[("/static/app.css", "body {}"), ("/static/app.css.gzip", "GZ")]⟩

/-- A request advertising plain lowercase gzip support. -/
def demo_req_gzip2 : Request :=
  { method := "GET", http_version := "HTTP/1.1", path := "/app.css",
    query := Option.none, headers := [("accept-encoding", "gzip")],
    body := "" }

/-- C10 witness: serving `app.css.gzip` keeps `Content-Type` at the
stylesheet's own `text/css`. -/
theorem C10_witness :
    send_file_contents demo_fs_css init_default_content_type "/static/app.css" demo_req_gzip2
      = some (http_status_line (.pint 200)
          ++ http_headers 2 (file_type init_default_content_type "/static/app.css") "gzip"
          ++ (dictGet? demo_fs_css.files "/static/app.css.gzip").getD "") ∧
    file_type init_default_content_type "/static/app.css" = "text/css" :=
  ⟨(C10_gzip_media_type_from_original demo_fs_css init_default_content_type
      "/static/app.css" demo_req_gzip2 2 (by decide) (by decide)).1, by decide⟩

end Thimble
